import Mathlib

/-!
# Progressive query page controller (`static/scripts.js`)

A shallow embedding of the browser script: the two HTML formatting helpers,
the chart renderer `renderVisualization`, the chart-type click listener, the
progressive loader `fetchDataProgressively` and the form's submit listener.

Conventions of the embedding

* The page is an explicit state (`Page`): the `innerHTML` of the two text
  regions, the `display` of the three spinners (`true` is `block`), the
  `data-merged-data` attribute of the raw-data region, the chart handle
  `currentChart`, and the history of network requests and chart operations.
* Every `await` splits an `async` function into segments; a segment is a pure
  function on `Page`.  What the network answers is an input (`FetchResult`).
* JSON numbers are an abstract type `Num`; their two renderings (template
  literal and `toLocaleString`) are parameters (`Fmt`).
-/

namespace Scripts

/-! ## Formatting helpers -/

/-- White space in the sense of `String.prototype.trim`: the ECMAScript
`WhiteSpace` and `LineTerminator` code points. -/
def isJsWhiteSpace (c : Char) : Bool :=
  c.val = 0x09 || c.val = 0x0A || c.val = 0x0B || c.val = 0x0C || c.val = 0x0D ||
  c.val = 0x20 || c.val = 0xA0 || c.val = 0x1680 ||
  (0x2000 ≤ c.val && c.val ≤ 0x200A) ||
  c.val = 0x2028 || c.val = 0x2029 || c.val = 0x202F || c.val = 0x205F ||
  c.val = 0x3000 || c.val = 0xFEFF

/-- The characters of `line.trim()`: white space removed at both ends. -/
def jsTrim (line : List Char) : List Char :=
  ((line.dropWhile isJsWhiteSpace).reverse.dropWhile isJsWhiteSpace).reverse

/-- Truthiness of the string `line.trim()`: a string is truthy when it is not
empty. -/
def trimTruthy (line : String) : Bool :=
  !(jsTrim line.data).isEmpty

/-- The pieces of `text.split('\n')` on character lists: `k` newlines give
`k + 1` pieces, the empty text gives one empty piece. -/
def splitNewline : List Char → List (List Char)
  | [] => [[]]
  | c :: cs =>
    if c = '\n' then [] :: splitNewline cs
    else
      match splitNewline cs with
      | [] => [[c]]
      | l :: ls => (c :: l) :: ls

/-- The array `analysis.split('\n')`. -/
def jsSplitLines (analysis : String) : List String :=
  (splitNewline analysis.data).map String.mk

/-- Embedding of `formatAnalysis` (lines 1-11): `forEach` over the lines,
appending an item to the accumulator for each line whose trim is truthy. -/
def formatAnalysis (analysis : String) : String :=
  let lines := jsSplitLines analysis
  let formatted := "<h3>Analysis Summary</h3><ul>"
  let formatted := lines.foldl
    (fun formatted line =>
      if trimTruthy line then formatted ++ ("<li>" ++ line ++ "</li>") else formatted)
    formatted
  formatted ++ "</ul>"

/-- A data point `{year, value}` of a dataset. -/
structure Point (Num : Type) where
  year : Num
  value : Num
deriving DecidableEq, Repr

/-- The two number renderings the script uses: the template literal
`${point.year}` and `point.value.toLocaleString()`. -/
structure Fmt (Num : Type) where
  numToString : Num → String
  toLocaleString : Num → String

/-- Embedding of `formatData` (lines 13-20): `forEach` over the points,
appending one table row per point. -/
def formatData {Num : Type} (fmt : Fmt Num) (data : List (Point Num)) : String :=
  let formatted := "<h3>Data Points</h3><table><tr><th>Year</th><th>Value</th></tr>"
  let formatted := data.foldl
    (fun formatted point =>
      formatted ++ ("<tr><td>" ++ fmt.numToString point.year ++ "</td><td>" ++
        fmt.toLocaleString point.value ++ "</td></tr>"))
    formatted
  formatted ++ "</table>"

/-- Concatenation of a list of fragments, left to right. -/
def concatAll : List String → String
  | [] => ""
  | x :: xs => x ++ concatAll xs

/-- Decimal rendering of integers, used where a concrete `Fmt` is needed. -/
def intFmt : Fmt Int where
  numToString := fun n => toString n
  toLocaleString := fun n => toString n

/-! ## Data exchanged with the backend -/

/-- A dataset of the raw-data response: its points (the `data` field, which
may be missing) and `label`, standing for the fields the script never reads. -/
structure Dataset (Num : Type) where
  data : Option (List (Point Num))
  label : String
deriving DecidableEq, Repr

/-- The echoed `query_params` of the raw-data response. -/
structure QueryParams where
  country : String
  indicator : String
deriving DecidableEq, Repr

/-- Parsed body of `/mcp/fetch`; either field may be missing. -/
structure RawDataResult (Num : Type) where
  datasets : Option (List (Dataset Num))
  query_params : Option QueryParams
deriving DecidableEq, Repr

/-- Parsed body of `/mcp/analyze`. -/
structure AnalysisResult where
  analysis : Option String
deriving DecidableEq, Repr

/-- Parsed body of `/mcp/visualize`. -/
structure VisualData (Num : Type) where
  years : List Num
  values : List Num
deriving DecidableEq, Repr

/-- A fulfilled `fetch`: the HTTP status and what `response.json()` gives, the
parsed body or the message of its rejection. -/
structure Response (α : Type) where
  status : Nat
  body : Except String α

/-- The getter `response.ok`: the status is in the range 200-299. -/
def Response.ok {α : Type} (response : Response α) : Bool :=
  decide (200 ≤ response.status) && decide (response.status ≤ 299)

/-- How a `fetch` settles: rejected with an error message, or fulfilled. -/
abbrev FetchResult (α : Type) := Except String (Response α)

/-- The three steps every request goes through inside its `try` block:
`await fetch`, `if (!response.ok) throw new Error(label + ": " + status)`,
`await response.json()`.  The result is the parsed body or the message of
the error that reaches the `catch`. -/
def settle {α : Type} (label : String) (result : FetchResult α) : Except String α :=
  match result with
  | .error message => .error message
  | .ok response =>
    if !response.ok then .error (label ++ ": " ++ toString response.status)
    else response.body

/-- A request sent to the backend. -/
inductive Request (Num : Type) where
  | fetch (query : String)
  | analyze (country indicator : String) (dataset : Option (Dataset Num))
  | visualize (merged_data : Dataset Num)
deriving DecidableEq, Repr

/-! ## The page -/

/-- A chart instance made by `new Chart`: `id` tells the instances apart (the
n-th instance created has id n), the rest are the configuration fields that
vary. -/
structure Chart (Num : Type) where
  id : Nat
  chartType : Option String
  labels : List Num
  values : List Num
deriving DecidableEq, Repr

/-- An operation on chart instances, in the history `Page.chartOps`. -/
inductive ChartOp (Num : Type) where
  | created (chart : Chart Num)
  | destroyed (id : Nat)
deriving DecidableEq, Repr

/-- State of the page and of the script's globals. -/
structure Page (Num : Type) where
  /-- Content (`innerHTML`) of the raw-data region. -/
  rawData : String
  /-- Content (`innerHTML`) of the analysis region. -/
  aiAnalysis : String
  /-- The attribute `dataset.mergedData` of the raw-data region: the JSON text
  of a dataset, kept as the dataset it encodes; `none` when never set. -/
  mergedData : Option (Dataset Num)
  rawDataSpinner : Bool
  aiAnalysisSpinner : Bool
  graphSpinner : Bool
  /-- Error blocks appended to the parent of the canvas. -/
  chartErrors : List String
  /-- The global `currentChart` (`none` is `null`). -/
  currentChart : Option (Chart Num)
  /-- Ids of the chart instances created and not destroyed. -/
  liveCharts : List Nat
  /-- Every creation and destruction of a chart so far, oldest first. -/
  chartOps : List (ChartOp Num)
  /-- Chart types of the `renderVisualization` calls awaiting their response. -/
  pendingRenders : List (Option String)
  /-- Every request sent so far, oldest first. -/
  requests : List (Request Num)
  /-- How often the timer callback has written its notice. -/
  noticeWrites : Nat

/-- The page when the script has just been loaded. -/
def initialPage {Num : Type} : Page Num where
  rawData := ""
  aiAnalysis := ""
  mergedData := none
  rawDataSpinner := false
  aiAnalysisSpinner := false
  graphSpinner := false
  chartErrors := []
  currentChart := none
  liveCharts := []
  chartOps := []
  pendingRenders := []
  requests := []
  noticeWrites := 0

/-! ## `renderVisualization` (lines 24-89) -/

/-- The method `destroy` of a chart. -/
def destroyChart {Num : Type} (chart : Chart Num) (s : Page Num) : Page Num :=
  { s with
    liveCharts := s.liveCharts.filter (fun i => i != chart.id)
    chartOps := s.chartOps ++ [ChartOp.destroyed chart.id] }

/-- The ids of the charts created in a history, oldest first. -/
def createdIds {Num : Type} (ops : List (ChartOp Num)) : List Nat :=
  ops.filterMap (fun op => match op with | .created chart => some chart.id | .destroyed _ => none)

/-- The ids of the charts destroyed in a history, oldest first; an id is
listed as often as `destroy` was called on that chart. -/
def destroyedIds {Num : Type} (ops : List (ChartOp Num)) : List Nat :=
  ops.filterMap (fun op => match op with | .created _ => none | .destroyed id => some id)

/-- The number of `new Chart` calls so far, which is the id of the next. -/
def chartsCreated {Num : Type} (s : Page Num) : Nat :=
  (createdIds s.chartOps).length

/-- The assignment `currentChart = new Chart(ctx, ...)` of lines 54-82. -/
def createChart {Num : Type} (chartType : Option String) (visualData : VisualData Num)
    (s : Page Num) : Page Num :=
  let chart : Chart Num :=
    { id := chartsCreated s, chartType := chartType,
      labels := visualData.years, values := visualData.values }
  { s with
    currentChart := some chart
    liveCharts := s.liveCharts ++ [chart.id]
    chartOps := s.chartOps ++ [ChartOp.created chart] }

/-- Lines 24-35, up to the `await`: show the spinner and send the request. -/
def renderVisualizationStart {Num : Type} (mergedData : Dataset Num)
    (chartType : Option String) (s : Page Num) : Page Num :=
  { s with
    graphSpinner := true
    requests := s.requests ++ [Request.visualize mergedData]
    pendingRenders := s.pendingRenders ++ [chartType] }

/-- The `catch` block of lines 83-88. -/
def visualizationFailed {Num : Type} (message : String) (s : Page Num) : Page Num :=
  { s with
    graphSpinner := false
    chartErrors := s.chartErrors ++
      ["<div class=\"error-message\">Error loading visualization: " ++ message ++ "</div>"] }

/-- Lines 37-88, from the settling of the request on: on success hide the
spinner, destroy the chart in `currentChart` if there is one, create the new
chart and store it. -/
def renderVisualizationResume {Num : Type} (chartType : Option String)
    (result : FetchResult (VisualData Num)) (s : Page Num) : Page Num :=
  match settle "Visualization error" result with
  | .error message => visualizationFailed message s
  | .ok visualData =>
    let s := { s with graphSpinner := false }
    let s := match s.currentChart with
      | some chart => destroyChart chart s
      | none => s
    createChart chartType visualData s

/-- The response to the `k`-th pending `renderVisualization` call arrives. -/
def visualizeResponse {Num : Type} (k : Nat) (result : FetchResult (VisualData Num))
    (s : Page Num) : Page Num :=
  match s.pendingRenders[k]? with
  | none => s
  | some chartType =>
    renderVisualizationResume chartType result
      { s with pendingRenders := s.pendingRenders.eraseIdx k }

/-- The responses that arrive, one after the other, while something else is
awaited; each names the pending call it answers. -/
def visualizeResponses {Num : Type} (arrivals : List (Nat × FetchResult (VisualData Num)))
    (s : Page Num) : Page Num :=
  arrivals.foldl (fun s a => visualizeResponse a.1 a.2 s) s

/-! ## The chart-type click listener (lines 92-99) -/

/-- The clicked element: its tag name and its `data-type` attribute
(`getAttribute` gives `null`, here `none`, when the attribute is missing). -/
structure ClickTarget where
  tagName : String
  dataType : Option String
deriving DecidableEq, Repr

/-- The listener up to its `await`.  `JSON.parse` of a missing attribute
throws, which ends the listener before anything is sent. -/
def graphTypeClickStart {Num : Type} (target : ClickTarget) (s : Page Num) : Page Num :=
  if target.tagName = "BUTTON" then
    match s.mergedData with
    | none => s
    | some mergedData => renderVisualizationStart mergedData target.dataType s
  else s

/-- The whole listener: its own request is the last pending one, and `result`
is the response to it. -/
def graphTypeClick {Num : Type} (target : ClickTarget)
    (result : FetchResult (VisualData Num)) (s : Page Num) : Page Num :=
  visualizeResponse s.pendingRenders.length result (graphTypeClickStart target s)

/-! ## `fetchDataProgressively` (lines 102-189) -/

/-- The `catch` block of lines 178-188. -/
def progressiveFailed {Num : Type} (message : String) (s : Page Num) : Page Num :=
  { s with
    rawDataSpinner := false
    aiAnalysisSpinner := false
    graphSpinner := false
    rawData := "<div class=\"error-message\">Error: " ++ message ++ "</div>"
    aiAnalysis :=
      "<div class=\"error-message\">Analysis could not be performed due to an error.</div>" }

/-- Lines 103-120, up to the first `await`: clear the two regions, show the
three spinners, send the raw-data request. -/
def fetchStart {Num : Type} (query : String) (s : Page Num) : Page Num :=
  { s with
    rawData := ""
    aiAnalysis := ""
    rawDataSpinner := true
    aiAnalysisSpinner := true
    graphSpinner := true
    requests := s.requests ++ [Request.fetch query] }

/-- The warning of lines 140-141. -/
def noDataWarning : String :=
  "<div class=\"warning-message\">No data available for this query.</div>"

/-- Lines 128-142: hide the raw-data spinner, then test
`datasets && datasets.length > 0 && datasets[0].data` (an array, empty or
not, is truthy) and either show the table, store the dataset and start the
chart, or show the warning. -/
def renderRawData {Num : Type} (fmt : Fmt Num) (rawDataResult : RawDataResult Num)
    (s : Page Num) : Page Num :=
  let s := { s with rawDataSpinner := false }
  match rawDataResult.datasets with
  | some (first :: _) =>
    match first.data with
    | some data =>
      renderVisualizationStart first (some "line")
        { s with rawData := formatData fmt data, mergedData := some first }
    | none => { s with rawData := noDataWarning }
  | _ => { s with rawData := noDataWarning }

/-- Lines 145-155: build and send the analysis request.  Reading `country`
of a missing `query_params`, or element 0 of a missing `datasets`, throws a
`TypeError` (its message is the one V8 gives); element 0 of an empty array is
`undefined` and the request goes out without a dataset. -/
def requestAnalysis {Num : Type} (rawDataResult : RawDataResult Num) (s : Page Num) :
    Except String (Page Num) :=
  match rawDataResult.query_params with
  | none => .error "Cannot read properties of undefined (reading \x27country\x27)"
  | some params =>
    match rawDataResult.datasets with
    | none => .error "Cannot read properties of undefined (reading \x270\x27)"
    | some datasets =>
      .ok { s with
            requests := s.requests ++
              [Request.analyze params.country params.indicator datasets.head?] }

/-- Where `fetchDataProgressively` stands after a segment: it has returned, or
it awaits the analysis response. -/
inductive Progress (Num : Type) where
  | returned (s : Page Num)
  | awaiting (s : Page Num)

/-- Lines 122-158, from the settling of the raw-data request to the second
`await`. -/
def afterRawData {Num : Type} (fmt : Fmt Num) (result : FetchResult (RawDataResult Num))
    (s : Page Num) : Progress Num :=
  match settle "Server error" result with
  | .error message => .returned (progressiveFailed message s)
  | .ok rawDataResult =>
    let s := renderRawData fmt rawDataResult s
    match requestAnalysis rawDataResult s with
    | .error message => .returned (progressiveFailed message s)
    | .ok s => .awaiting s

/-- The warning of lines 174-175. -/
def noAnalysisWarning : String :=
  "<div class=\"warning-message\">No analysis available for this data.</div>"

/-- Lines 160-188, from the settling of the analysis request on.  The text
`analysis` is truthy when it is present and not empty. -/
def afterAnalysis {Num : Type} (result : FetchResult AnalysisResult) (s : Page Num) :
    Page Num :=
  match settle "Analysis error" result with
  | .error message => progressiveFailed message s
  | .ok analysisResult =>
    let s := { s with aiAnalysisSpinner := false }
    match analysisResult.analysis with
    | some analysis =>
      if analysis ≠ "" then { s with aiAnalysis := formatAnalysis analysis }
      else { s with aiAnalysis := noAnalysisWarning }
    | none => { s with aiAnalysis := noAnalysisWarning }

/-- One run of `fetchDataProgressively`, from the call to the return:
`rawResult` and `analysisResult` are how its two requests settle, `arrivals`
the chart responses that come in while the analysis is awaited. -/
def fetchDataProgressively {Num : Type} (fmt : Fmt Num) (query : String)
    (rawResult : FetchResult (RawDataResult Num))
    (arrivals : List (Nat × FetchResult (VisualData Num)))
    (analysisResult : FetchResult AnalysisResult) (s : Page Num) : Page Num :=
  match afterRawData fmt rawResult (fetchStart query s) with
  | .returned s => s
  | .awaiting s => afterAnalysis analysisResult (visualizeResponses arrivals s)

/-! ## The submit listener (lines 192-208) -/

/-- The notice of lines 200-201. -/
def slowNotice : String :=
  "<div class=\"info-message\">Request is taking longer than usual. Please wait...</div>"

/-- The timer callback of lines 199-202. -/
def timerCallback {Num : Type} (s : Page Num) : Page Num :=
  { s with rawData := slowNotice, noticeWrites := s.noticeWrites + 1 }

/-- When the two requests of a submission settle, in milliseconds: the
raw-data request `rawAfter` after `setTimeout`, the analysis request
`analysisAfter` after that.  `timerFirst` says which task runs first when the
timer and a response are due at the same instant. -/
structure Timing where
  rawAfter : Nat
  analysisAfter : Nat
  timerFirst : Bool
deriving DecidableEq, Repr

/-- Whether the 5000 ms timer, still set, runs before the task due `elapsed`
milliseconds after `setTimeout`. -/
def timerDue (timing : Timing) (elapsed : Nat) : Bool :=
  decide (5000 < elapsed) || (decide (elapsed = 5000) && timing.timerFirst)

/-- The submit listener: set the timer, run `fetchDataProgressively`, clear
the timer when it has returned.  The timer callback runs once, before the
first segment that is due after it, unless the timer is cleared first. -/
def submitHandler {Num : Type} (fmt : Fmt Num) (query : String) (timing : Timing)
    (rawResult : FetchResult (RawDataResult Num))
    (arrivals : List (Nat × FetchResult (VisualData Num)))
    (analysisResult : FetchResult AnalysisResult) (s : Page Num) : Page Num :=
  let s := fetchStart query s
  let firedEarly := timerDue timing timing.rawAfter
  let s := if firedEarly then timerCallback s else s
  match afterRawData fmt rawResult s with
  | .returned s => s
  | .awaiting s =>
    let s := visualizeResponses arrivals s
    let firedLate := !firedEarly && timerDue timing (timing.rawAfter + timing.analysisAfter)
    let s := if firedLate then timerCallback s else s
    afterAnalysis analysisResult s

/-- The page a segment of `fetchDataProgressively` leaves. -/
def Progress.page {Num : Type} : Progress Num → Page Num
  | .returned s => s
  | .awaiting s => s

/-- Whether `fetchDataProgressively` has returned. -/
def Progress.isReturned {Num : Type} : Progress Num → Bool
  | .returned _ => true
  | .awaiting _ => false

/-- The time, in milliseconds after `setTimeout`, at which the run of
`fetchDataProgressively` inside the submit listener returns, so that
`clearTimeout` is reached: when the raw-data request settles if the run ends
there, when the analysis request settles otherwise. -/
def returnsAfter {Num : Type} (fmt : Fmt Num) (query : String) (timing : Timing)
    (rawResult : FetchResult (RawDataResult Num)) (s : Page Num) : Nat :=
  match afterRawData fmt rawResult (fetchStart query s) with
  | .returned _ => timing.rawAfter
  | .awaiting _ => timing.rawAfter + timing.analysisAfter

/-! ## Sequences of events -/

/-- What can happen to the chart handle: a call of `renderVisualization`, or
the arrival of the response to the `k`-th pending call. -/
inductive ChartEvent (Num : Type) where
  | render (mergedData : Dataset Num) (chartType : Option String)
  | response (k : Nat) (result : FetchResult (VisualData Num))

/-- One event on the page. -/
def chartStep {Num : Type} (s : Page Num) : ChartEvent Num → Page Num
  | .render mergedData chartType => renderVisualizationStart mergedData chartType s
  | .response k result => visualizeResponse k result s

/-- The page after a sequence of events, in any interleaving. -/
def runChartEvents {Num : Type} (s : Page Num) (events : List (ChartEvent Num)) : Page Num :=
  events.foldl chartStep s

/-- One submission run to its end: the query and how its requests settle. -/
structure Submission (Num : Type) where
  query : String
  rawResult : FetchResult (RawDataResult Num)
  arrivals : List (Nat × FetchResult (VisualData Num))
  analysisResult : FetchResult AnalysisResult

/-- Submissions one after the other, each run to its end. -/
def runSubmissions {Num : Type} (fmt : Fmt Num) (s : Page Num)
    (submissions : List (Submission Num)) : Page Num :=
  submissions.foldl
    (fun s sub =>
      fetchDataProgressively fmt sub.query sub.rawResult sub.arrivals sub.analysisResult s)
    s

/-- The dataset with which a raw-data response passes the test of line 132,
if it is successful and passes it. -/
def passesCheck {Num : Type} (rawResult : FetchResult (RawDataResult Num)) :
    Option (Dataset Num) :=
  match settle "Server error" rawResult with
  | .error _ => none
  | .ok rawDataResult =>
    match rawDataResult.datasets with
    | some (first :: _) => if first.data.isSome then some first else none
    | _ => none

/-- What holds of the chart handle in every reachable state: the charts were
created with ids 0, 1, 2, ... in this order; with `currentChart` empty
nothing has happened yet; otherwise `currentChart` is the chart created last,
it is the only live one, and the charts destroyed are those created before
it, each once and in the order of creation. -/
structure ChartInvariant {Num : Type} (s : Page Num) : Prop where
  created : createdIds s.chartOps = List.range (chartsCreated s)
  handle : match s.currentChart with
    | none => s.chartOps = [] ∧ s.liveCharts = []
    | some chart =>
      chart.id + 1 = chartsCreated s ∧ destroyedIds s.chartOps = List.range chart.id
        ∧ s.liveCharts = [chart.id]

/-! ## Lemmas on the helpers -/

theorem foldl_append_fragments {α : Type} (f : α → String) (xs : List α) (acc : String) :
    xs.foldl (fun formatted x => formatted ++ f x) acc = acc ++ concatAll (xs.map f) := by
  induction xs generalizing acc with
  | nil => simp [concatAll]
  | cons x xs ih => simp [concatAll, ih, String.append_assoc]

theorem foldl_append_filtered (p : String → Bool) (f : String → String) (xs : List String)
    (acc : String) :
    xs.foldl (fun formatted x => if p x then formatted ++ f x else formatted) acc
      = acc ++ concatAll ((xs.filter p).map f) := by
  induction xs generalizing acc with
  | nil => simp [concatAll]
  | cons x xs ih =>
    by_cases hx : p x = true
    · simp [concatAll, ih, hx, String.append_assoc]
    · simp [ih, hx]

theorem dropWhile_ne_nil_iff {α : Type} (p : α → Bool) (xs : List α) :
    xs.dropWhile p ≠ [] ↔ ∃ x ∈ xs, p x = false := by
  induction xs with
  | nil => simp
  | cons x xs ih =>
    by_cases hx : p x = true
    · simp [List.dropWhile_cons, hx, ih]
    · simp [List.dropWhile_cons, hx]

theorem jsTrim_ne_nil_iff (line : List Char) :
    jsTrim line ≠ [] ↔ ∃ c ∈ line, isJsWhiteSpace c = false := by
  unfold jsTrim
  rw [Ne, List.reverse_eq_nil_iff, ← Ne, dropWhile_ne_nil_iff]
  constructor
  · rintro ⟨c, hc, hw⟩
    exact ⟨c, (List.dropWhile_suffix _).subset (List.mem_reverse.mp hc), hw⟩
  · rintro ⟨c, hc, hw⟩
    have hne : line.dropWhile isJsWhiteSpace ≠ [] :=
      (dropWhile_ne_nil_iff isJsWhiteSpace line).mpr ⟨c, hc, hw⟩
    cases hd : line.dropWhile isJsWhiteSpace with
    | nil => exact absurd hd hne
    | cons x rest =>
      have hx : isJsWhiteSpace x = false := by
        have := List.head_dropWhile_not isJsWhiteSpace line hne
        simpa [hd] using this
      exact ⟨x, by simp, hx⟩

theorem splitNewline_ne_nil (text : List Char) : splitNewline text ≠ [] := by
  cases text with
  | nil => simp [splitNewline]
  | cons c cs =>
    unfold splitNewline
    split
    · simp
    · split <;> simp

/-- The pieces of `splitNewline`, joined again by newlines, are the text. -/
theorem splitNewline_intercalate (text : List Char) :
    List.intercalate ['\n'] (splitNewline text) = text := by
  induction text with
  | nil => simp [splitNewline, List.intercalate]
  | cons c cs ih =>
    unfold splitNewline
    by_cases hc : c = '\n'
    · simp only [hc, if_true]
      cases hs : splitNewline cs with
      | nil => exact absurd hs (splitNewline_ne_nil cs)
      | cons l ls =>
        rw [hs] at ih
        rw [← ih]
        simp [List.intercalate, List.intersperse]
    · simp only [hc, if_false]
      cases hs : splitNewline cs with
      | nil => exact absurd hs (splitNewline_ne_nil cs)
      | cons l ls =>
        rw [hs] at ih
        rw [← ih]
        cases ls <;> simp [List.intercalate, List.intersperse]

/-- No piece of `splitNewline` has a newline in it. -/
theorem splitNewline_no_newline (text : List Char) :
    ∀ piece ∈ splitNewline text, '\n' ∉ piece := by
  induction text with
  | nil => simp [splitNewline]
  | cons c cs ih =>
    unfold splitNewline
    by_cases hc : c = '\n'
    · simp only [hc, if_true]
      intro piece hp
      rcases List.mem_cons.mp hp with h | h
      · simp [h]
      · exact ih piece h
    · simp only [hc, if_false]
      cases hs : splitNewline cs with
      | nil => exact absurd hs (splitNewline_ne_nil cs)
      | cons l ls =>
        rw [hs] at ih
        intro piece hp
        rcases List.mem_cons.mp hp with h | h
        · rw [h]
          intro hmem
          rcases List.mem_cons.mp hmem with h2 | h2
          · exact hc h2.symm
          · exact ih l (by simp) h2
        · exact ih piece (List.mem_cons_of_mem _ h)

/-! ## Claims on the helpers -/

/-- C5: for every list of points, `formatData` is the fixed header fragment,
then one row fragment `<tr><td>YEAR</td><td>VALUE</td></tr>` per point in
input order, then `</table>`; the number of row fragments is the number of
points, and the empty list gives the header row alone. -/
theorem formatData_rows {Num : Type} (fmt : Fmt Num) (data : List (Point Num)) :
    formatData fmt data
        = "<h3>Data Points</h3><table><tr><th>Year</th><th>Value</th></tr>"
          ++ concatAll (data.map (fun point =>
              "<tr><td>" ++ fmt.numToString point.year ++ "</td><td>" ++
                fmt.toLocaleString point.value ++ "</td></tr>"))
          ++ "</table>"
      ∧ (data.map (fun point =>
            "<tr><td>" ++ fmt.numToString point.year ++ "</td><td>" ++
              fmt.toLocaleString point.value ++ "</td></tr>")).length = data.length
      ∧ formatData fmt ([] : List (Point Num))
          = "<h3>Data Points</h3><table><tr><th>Year</th><th>Value</th></tr></table>" := by
  refine ⟨?_, by simp, rfl⟩
  exact congrArg (fun t => t ++ "</table>")
    (foldl_append_fragments
      (fun point : Point Num =>
        "<tr><td>" ++ fmt.numToString point.year ++ "</td><td>" ++
          fmt.toLocaleString point.value ++ "</td></tr>")
      data "<h3>Data Points</h3><table><tr><th>Year</th><th>Value</th></tr>")

/-- C6: for every analysis text, `formatAnalysis` is the heading and `<ul>`,
then one `<li>LINE</li>` per line whose trim is not empty, in order and
untrimmed, then `</ul>`.  The lines are those of the text split at newlines:
they hold no newline and, joined again by newlines, give the text back.  The
lines kept are those with a character that is not white space (space, tab,
carriage return and no-break space are white space, a letter is not), so the
number of items is the number of non-blank lines, and empty and
white-space-only lines give no item, as in the text of three lines with a
blank one in the middle. -/
theorem formatAnalysis_items (analysis : String) :
    formatAnalysis analysis
        = "<h3>Analysis Summary</h3><ul>"
          ++ concatAll (((jsSplitLines analysis).filter trimTruthy).map
              (fun line => "<li>" ++ line ++ "</li>"))
          ++ "</ul>"
      ∧ (((jsSplitLines analysis).filter trimTruthy).map
            (fun line => "<li>" ++ line ++ "</li>")).length
          = (jsSplitLines analysis).countP trimTruthy
      ∧ List.intercalate ['\n'] ((jsSplitLines analysis).map String.data) = analysis.data
      ∧ (∀ line ∈ jsSplitLines analysis, '\n' ∉ line.data)
      ∧ (∀ line : String, line ∈ (jsSplitLines analysis).filter trimTruthy ↔
          line ∈ jsSplitLines analysis ∧ ∃ c ∈ line.data, isJsWhiteSpace c = false)
      ∧ (isJsWhiteSpace ' ' = true ∧ isJsWhiteSpace '\t' = true ∧ isJsWhiteSpace '\r' = true
          ∧ isJsWhiteSpace (Char.ofNat 0xA0) = true ∧ isJsWhiteSpace 'a' = false
          ∧ isJsWhiteSpace '<' = false)
      ∧ formatAnalysis "growth\n \t\n\nslow " =
          "<h3>Analysis Summary</h3><ul><li>growth</li><li>slow </li></ul>"
      ∧ formatAnalysis "" = "<h3>Analysis Summary</h3><ul></ul>" := by
  refine ⟨?_, ?_, ?_, ?_, ?_, by decide, by decide, by decide⟩
  · exact congrArg (fun t => t ++ "</ul>")
      (foldl_append_filtered trimTruthy (fun line => "<li>" ++ line ++ "</li>")
        (jsSplitLines analysis) "<h3>Analysis Summary</h3><ul>")
  · simp [List.countP_eq_length_filter]
  · have h := splitNewline_intercalate analysis.data
    have hmap : (jsSplitLines analysis).map String.data = splitNewline analysis.data := by
      unfold jsSplitLines
      rw [List.map_map]
      exact List.map_id _
    rw [hmap, h]
  · intro line hl
    unfold jsSplitLines at hl
    rcases List.mem_map.mp hl with ⟨piece, hp, rfl⟩
    exact splitNewline_no_newline analysis.data piece hp
  · intro line
    rw [List.mem_filter, ← jsTrim_ne_nil_iff]
    constructor
    · rintro ⟨hm, ht⟩
      refine ⟨hm, ?_⟩
      intro h
      simp [trimTruthy, h] at ht
    · rintro ⟨hm, ht⟩
      refine ⟨hm, ?_⟩
      cases hj : jsTrim line.data with
      | nil => exact absurd hj ht
      | cons c cs => simp [trimTruthy, hj]

/-! ## Lemmas on the segments -/

theorem renderVisualizationResume_frame {Num : Type} (chartType : Option String)
    (result : FetchResult (VisualData Num)) (s : Page Num) :
    (renderVisualizationResume chartType result s).rawData = s.rawData
      ∧ (renderVisualizationResume chartType result s).aiAnalysis = s.aiAnalysis
      ∧ (renderVisualizationResume chartType result s).mergedData = s.mergedData
      ∧ (renderVisualizationResume chartType result s).requests = s.requests
      ∧ (renderVisualizationResume chartType result s).noticeWrites = s.noticeWrites
      ∧ (renderVisualizationResume chartType result s).pendingRenders = s.pendingRenders := by
  unfold renderVisualizationResume
  cases settle "Visualization error" result with
  | error message => simp [visualizationFailed]
  | ok visualData =>
    cases h : s.currentChart with
    | none => simp [h, createChart]
    | some chart => simp [h, createChart, destroyChart]

theorem visualizeResponse_frame {Num : Type} (k : Nat)
    (result : FetchResult (VisualData Num)) (s : Page Num) :
    (visualizeResponse k result s).rawData = s.rawData
      ∧ (visualizeResponse k result s).aiAnalysis = s.aiAnalysis
      ∧ (visualizeResponse k result s).mergedData = s.mergedData
      ∧ (visualizeResponse k result s).requests = s.requests
      ∧ (visualizeResponse k result s).noticeWrites = s.noticeWrites := by
  unfold visualizeResponse
  cases s.pendingRenders[k]? with
  | none => simp
  | some chartType =>
    have h := renderVisualizationResume_frame chartType result
      { s with pendingRenders := s.pendingRenders.eraseIdx k }
    exact ⟨h.1, h.2.1, h.2.2.1, h.2.2.2.1, h.2.2.2.2.1⟩

theorem visualizeResponses_frame {Num : Type}
    (arrivals : List (Nat × FetchResult (VisualData Num))) (s : Page Num) :
    (visualizeResponses arrivals s).rawData = s.rawData
      ∧ (visualizeResponses arrivals s).aiAnalysis = s.aiAnalysis
      ∧ (visualizeResponses arrivals s).mergedData = s.mergedData
      ∧ (visualizeResponses arrivals s).requests = s.requests
      ∧ (visualizeResponses arrivals s).noticeWrites = s.noticeWrites := by
  induction arrivals generalizing s with
  | nil => simp [visualizeResponses]
  | cons a rest ih =>
    have h := visualizeResponse_frame a.1 a.2 s
    have h2 := ih (visualizeResponse a.1 a.2 s)
    simp only [visualizeResponses, List.foldl_cons] at h2 ⊢
    exact ⟨h2.1.trans h.1, h2.2.1.trans h.2.1, h2.2.2.1.trans h.2.2.1,
      h2.2.2.2.1.trans h.2.2.2.1, h2.2.2.2.2.trans h.2.2.2.2⟩

theorem afterAnalysis_ok {Num : Type} (result : FetchResult AnalysisResult)
    (analysisResult : AnalysisResult) (s : Page Num)
    (h : settle "Analysis error" result = .ok analysisResult) :
    (afterAnalysis result s).rawData = s.rawData
      ∧ (afterAnalysis result s).mergedData = s.mergedData
      ∧ (afterAnalysis result s).requests = s.requests
      ∧ (afterAnalysis result s).noticeWrites = s.noticeWrites := by
  unfold afterAnalysis
  rw [h]
  rcases analysisResult with ⟨_ | analysis⟩
  · simp
  · by_cases ha : analysis = "" <;> simp [ha]

theorem afterAnalysis_error {Num : Type} (result : FetchResult AnalysisResult)
    (message : String) (s : Page Num)
    (h : settle "Analysis error" result = .error message) :
    afterAnalysis result s = progressiveFailed message s := by
  unfold afterAnalysis
  rw [h]

theorem afterAnalysis_frame {Num : Type} (result : FetchResult AnalysisResult)
    (s : Page Num) :
    (afterAnalysis result s).mergedData = s.mergedData
      ∧ (afterAnalysis result s).requests = s.requests
      ∧ (afterAnalysis result s).noticeWrites = s.noticeWrites := by
  cases h : settle "Analysis error" result with
  | error message => rw [afterAnalysis_error result message s h]; simp [progressiveFailed]
  | ok analysisResult =>
    have := afterAnalysis_ok result analysisResult s h
    exact ⟨this.2.1, this.2.2.1, this.2.2.2⟩

theorem fetchDataProgressively_raw_error {Num : Type} (fmt : Fmt Num) (query : String)
    (rawResult : FetchResult (RawDataResult Num))
    (arrivals : List (Nat × FetchResult (VisualData Num)))
    (analysisResult : FetchResult AnalysisResult) (s : Page Num) (message : String)
    (h : settle "Server error" rawResult = .error message) :
    fetchDataProgressively fmt query rawResult arrivals analysisResult s
      = progressiveFailed message (fetchStart query s) := by
  simp [fetchDataProgressively, afterRawData, h]

theorem fetchDataProgressively_analysis {Num : Type} (fmt : Fmt Num) (query : String)
    (rawResult : FetchResult (RawDataResult Num))
    (arrivals : List (Nat × FetchResult (VisualData Num)))
    (analysisResult : FetchResult AnalysisResult) (s : Page Num)
    (rawDataResult : RawDataResult Num) (params : QueryParams)
    (datasets : List (Dataset Num))
    (h : settle "Server error" rawResult = .ok rawDataResult)
    (hp : rawDataResult.query_params = some params)
    (hd : rawDataResult.datasets = some datasets) :
    fetchDataProgressively fmt query rawResult arrivals analysisResult s
      = afterAnalysis analysisResult (visualizeResponses arrivals
          { renderRawData fmt rawDataResult (fetchStart query s) with
            requests := (renderRawData fmt rawDataResult (fetchStart query s)).requests ++
              [Request.analyze params.country params.indicator datasets.head?] }) := by
  simp [fetchDataProgressively, afterRawData, h, requestAnalysis, hp, hd]

theorem fetchDataProgressively_no_params {Num : Type} (fmt : Fmt Num) (query : String)
    (rawResult : FetchResult (RawDataResult Num))
    (arrivals : List (Nat × FetchResult (VisualData Num)))
    (analysisResult : FetchResult AnalysisResult) (s : Page Num)
    (rawDataResult : RawDataResult Num)
    (h : settle "Server error" rawResult = .ok rawDataResult)
    (hp : rawDataResult.query_params = none) :
    fetchDataProgressively fmt query rawResult arrivals analysisResult s
      = progressiveFailed "Cannot read properties of undefined (reading \x27country\x27)"
          (renderRawData fmt rawDataResult (fetchStart query s)) := by
  simp [fetchDataProgressively, afterRawData, h, requestAnalysis, hp]

theorem renderRawData_table {Num : Type} (fmt : Fmt Num) (rawDataResult : RawDataResult Num)
    (s : Page Num) (first : Dataset Num) (rest : List (Dataset Num)) (data : List (Point Num))
    (hd : rawDataResult.datasets = some (first :: rest)) (hf : first.data = some data) :
    renderRawData fmt rawDataResult s
      = renderVisualizationStart first (some "line")
          { s with rawDataSpinner := false, rawData := formatData fmt data,
                   mergedData := some first } := by
  simp [renderRawData, hd, hf]

theorem renderRawData_warning {Num : Type} (fmt : Fmt Num) (rawDataResult : RawDataResult Num)
    (s : Page Num)
    (h : ∀ first rest data,
      ¬ (rawDataResult.datasets = some (first :: rest) ∧ first.data = some data)) :
    renderRawData fmt rawDataResult s
      = { s with rawDataSpinner := false, rawData := noDataWarning } := by
  unfold renderRawData
  rcases hd : rawDataResult.datasets with _ | datasets
  · simp
  · cases datasets with
    | nil => simp
    | cons first rest =>
      cases hf : first.data with
      | none => simp [hf]
      | some data => exact absurd ⟨hd, hf⟩ (h first rest data)

/-! ## Claims on `fetchDataProgressively` -/

/-- C7: when the raw-data request is answered with a status that is not OK,
`fetchDataProgressively` sends nothing but that request (no analysis request,
no visualize request), and at its return the raw-data region holds the error
block with `Server error: <status>`, the analysis region holds its error
block, and the three spinners are hidden. -/
theorem raw_status_not_ok {Num : Type} (fmt : Fmt Num) (query : String)
    (response : Response (RawDataResult Num))
    (arrivals : List (Nat × FetchResult (VisualData Num)))
    (analysisResult : FetchResult AnalysisResult) (s : Page Num)
    (h : response.ok = false) :
    (fetchDataProgressively fmt query (.ok response) arrivals analysisResult s).requests
        = s.requests ++ [Request.fetch query]
      ∧ (fetchDataProgressively fmt query (.ok response) arrivals analysisResult s).pendingRenders
        = s.pendingRenders
      ∧ (fetchDataProgressively fmt query (.ok response) arrivals analysisResult s).rawData
        = "<div class=\"error-message\">Error: " ++
            ("Server error: " ++ toString response.status) ++ "</div>"
      ∧ (fetchDataProgressively fmt query (.ok response) arrivals analysisResult s).aiAnalysis
        = "<div class=\"error-message\">Analysis could not be performed due to an error.</div>"
      ∧ (fetchDataProgressively fmt query (.ok response) arrivals analysisResult s).rawDataSpinner
        = false
      ∧ (fetchDataProgressively fmt query (.ok response) arrivals analysisResult s).aiAnalysisSpinner
        = false
      ∧ (fetchDataProgressively fmt query (.ok response) arrivals analysisResult s).graphSpinner
        = false := by
  have hs : settle "Server error" (Except.ok response : FetchResult (RawDataResult Num))
      = .error ("Server error: " ++ toString response.status) := by
    simp [settle, h]
  simp [fetchDataProgressively, afterRawData, hs, progressiveFailed, fetchStart]

/-- Witness of C7 at status 500. -/
theorem raw_status_not_ok_witness :
    (⟨500, .error "no body"⟩ : Response (RawDataResult Int)).ok = false
      ∧ (fetchDataProgressively intFmt "gdp of nepal" (.ok ⟨500, .error "no body"⟩) []
          (.error "unused") initialPage).rawData
        = "<div class=\"error-message\">Error: Server error: 500</div>"
      ∧ (fetchDataProgressively intFmt "gdp of nepal" (.ok ⟨500, .error "no body"⟩) []
          (.error "unused") initialPage).requests = [Request.fetch "gdp of nepal"] :=
  ⟨by decide,
   (raw_status_not_ok intFmt "gdp of nepal" ⟨500, .error "no body"⟩ []
      (.error "unused") initialPage (by decide)).2.2.1,
   (raw_status_not_ok intFmt "gdp of nepal" ⟨500, .error "no body"⟩ []
      (.error "unused") initialPage (by decide)).1⟩

/-- C3: the claim asks for the no-data warning when the first dataset has an
empty point list.  At the successful response `datasets: [{data: []}]` the
code does otherwise: the test of line 132 asks only whether `data` is there,
so the run shows a table with the header row alone, stores that dataset as
merged data and sends the visualize request for it; the warning is not shown,
neither in the run alone nor under the submit listener. -/
theorem empty_point_list_renders_table :
    (fetchDataProgressively intFmt "gdp of nepal"
        (.ok ⟨200, .ok ⟨some [⟨some [], "gdp"⟩], some ⟨"NP", "GDP"⟩⟩⟩) []
        (.ok ⟨200, .ok ⟨some "steady growth"⟩⟩) initialPage).rawData
        = "<h3>Data Points</h3><table><tr><th>Year</th><th>Value</th></tr></table>"
      ∧ (fetchDataProgressively intFmt "gdp of nepal"
          (.ok ⟨200, .ok ⟨some [⟨some [], "gdp"⟩], some ⟨"NP", "GDP"⟩⟩⟩) []
          (.ok ⟨200, .ok ⟨some "steady growth"⟩⟩) initialPage).rawData ≠ noDataWarning
      ∧ (fetchDataProgressively intFmt "gdp of nepal"
          (.ok ⟨200, .ok ⟨some [⟨some [], "gdp"⟩], some ⟨"NP", "GDP"⟩⟩⟩) []
          (.ok ⟨200, .ok ⟨some "steady growth"⟩⟩) initialPage).mergedData
        = some ⟨some [], "gdp"⟩
      ∧ (fetchDataProgressively intFmt "gdp of nepal"
          (.ok ⟨200, .ok ⟨some [⟨some [], "gdp"⟩], some ⟨"NP", "GDP"⟩⟩⟩) []
          (.ok ⟨200, .ok ⟨some "steady growth"⟩⟩) initialPage).requests
        = [Request.fetch "gdp of nepal", Request.visualize ⟨some [], "gdp"⟩,
           Request.analyze "NP" "GDP" (some ⟨some [], "gdp"⟩)]
      ∧ (submitHandler intFmt "gdp of nepal" ⟨1000, 2000, false⟩
          (.ok ⟨200, .ok ⟨some [⟨some [], "gdp"⟩], some ⟨"NP", "GDP"⟩⟩⟩) []
          (.ok ⟨200, .ok ⟨some "steady growth"⟩⟩) initialPage).rawData
        = "<h3>Data Points</h3><table><tr><th>Year</th><th>Value</th></tr></table>"
      ∧ (renderRawData intFmt ⟨some [⟨some [⟨1990, 7⟩], "gdp"⟩], some ⟨"NP", "GDP"⟩⟩
          initialPage).rawData
        = "<h3>Data Points</h3><table><tr><th>Year</th><th>Value</th></tr>" ++
          "<tr><td>1990</td><td>7</td></tr></table>"
      ∧ (renderRawData intFmt ⟨some [], some ⟨"NP", "GDP"⟩⟩ initialPage).rawData
        = noDataWarning := by
  decide

theorem submitHandler_analysis {Num : Type} (fmt : Fmt Num) (query : String)
    (timing : Timing) (rawResult : FetchResult (RawDataResult Num))
    (arrivals : List (Nat × FetchResult (VisualData Num)))
    (analysisResult : FetchResult AnalysisResult) (s : Page Num)
    (rawDataResult : RawDataResult Num) (params : QueryParams)
    (datasets : List (Dataset Num))
    (h : settle "Server error" rawResult = .ok rawDataResult)
    (hp : rawDataResult.query_params = some params)
    (hd : rawDataResult.datasets = some datasets) :
    submitHandler fmt query timing rawResult arrivals analysisResult s
      = afterAnalysis analysisResult
          (if (!timerDue timing timing.rawAfter
                && timerDue timing (timing.rawAfter + timing.analysisAfter)) = true
           then timerCallback (visualizeResponses arrivals
              { renderRawData fmt rawDataResult
                  (if timerDue timing timing.rawAfter = true
                   then timerCallback (fetchStart query s) else fetchStart query s) with
                requests := (renderRawData fmt rawDataResult
                  (if timerDue timing timing.rawAfter = true
                   then timerCallback (fetchStart query s) else fetchStart query s)).requests ++
                  [Request.analyze params.country params.indicator datasets.head?] })
           else visualizeResponses arrivals
              { renderRawData fmt rawDataResult
                  (if timerDue timing timing.rawAfter = true
                   then timerCallback (fetchStart query s) else fetchStart query s) with
                requests := (renderRawData fmt rawDataResult
                  (if timerDue timing timing.rawAfter = true
                   then timerCallback (fetchStart query s) else fetchStart query s)).requests ++
                  [Request.analyze params.country params.indicator datasets.head?] }) := by
  simp [submitHandler, afterRawData, h, requestAnalysis, hp, hd]

theorem submitHandler_no_params {Num : Type} (fmt : Fmt Num) (query : String)
    (timing : Timing) (rawResult : FetchResult (RawDataResult Num))
    (arrivals : List (Nat × FetchResult (VisualData Num)))
    (analysisResult : FetchResult AnalysisResult) (s : Page Num)
    (rawDataResult : RawDataResult Num)
    (h : settle "Server error" rawResult = .ok rawDataResult)
    (hp : rawDataResult.query_params = none) :
    submitHandler fmt query timing rawResult arrivals analysisResult s
      = progressiveFailed "Cannot read properties of undefined (reading \x27country\x27)"
          (renderRawData fmt rawDataResult
            (if timerDue timing timing.rawAfter = true
             then timerCallback (fetchStart query s) else fetchStart query s)) := by
  simp [submitHandler, afterRawData, h, requestAnalysis, hp]

/-- C4, as stated, fails: with an empty `datasets` list and an analysis request
answered with status 500, the raw-data region holds the error block at the
return, not the warning; and under the submit listener, with an analysis that
succeeds 6 seconds after a raw-data response that took 1 second, it holds
the notice of the timer. -/
theorem empty_datasets_counterexample :
    (fetchDataProgressively intFmt "gdp of nepal"
        (.ok ⟨200, .ok ⟨some [], some ⟨"NP", "GDP"⟩⟩⟩) []
        (.ok ⟨500, .error "no body"⟩) initialPage).rawData
        = "<div class=\"error-message\">Error: Analysis error: 500</div>"
      ∧ (fetchDataProgressively intFmt "gdp of nepal"
          (.ok ⟨200, .ok ⟨some [], some ⟨"NP", "GDP"⟩⟩⟩) []
          (.ok ⟨500, .error "no body"⟩) initialPage).rawData ≠ noDataWarning
      ∧ (submitHandler intFmt "gdp of nepal" ⟨1000, 6000, false⟩
          (.ok ⟨200, .ok ⟨some [], some ⟨"NP", "GDP"⟩⟩⟩) []
          (.ok ⟨200, .ok ⟨some "steady growth"⟩⟩) initialPage).rawData = slowNotice
      ∧ slowNotice ≠ noDataWarning := by
  decide

/-- C4, amended: under the submit listener, whatever the timing, when the
raw-data response is successful with an empty `datasets` list then for every
outcome of the analysis request no visualize request is sent (the requests
sent are the raw-data request and, if `query_params` is there, an analysis
request without dataset), also in the run of `fetchDataProgressively` alone.
At the return the raw-data region holds the error block when the analysis
phase fails; when it succeeds it holds the warning provided the timer did not
run while the analysis was awaited (the run returned in under 5 seconds, or
the raw-data response itself came after more than 5 seconds), and the notice
of the timer when the timer ran during that wait. -/
theorem empty_datasets_no_chart {Num : Type} (fmt : Fmt Num) (query : String)
    (timing : Timing) (rawResult : FetchResult (RawDataResult Num))
    (arrivals : List (Nat × FetchResult (VisualData Num)))
    (analysisResult : FetchResult AnalysisResult) (s : Page Num)
    (rawDataResult : RawDataResult Num)
    (h : settle "Server error" rawResult = .ok rawDataResult)
    (hd : rawDataResult.datasets = some []) :
    (submitHandler fmt query timing rawResult arrivals analysisResult s).requests
        = s.requests ++ [Request.fetch query] ++
          (match rawDataResult.query_params with
            | some params => [Request.analyze params.country params.indicator none]
            | none => [])
      ∧ (fetchDataProgressively fmt query rawResult arrivals analysisResult s).requests
        = s.requests ++ [Request.fetch query] ++
          (match rawDataResult.query_params with
            | some params => [Request.analyze params.country params.indicator none]
            | none => [])
      ∧ (∀ mergedData,
          Request.visualize mergedData ∈
            (submitHandler fmt query timing rawResult arrivals analysisResult s).requests →
          Request.visualize mergedData ∈ s.requests)
      ∧ (∀ params analysis, rawDataResult.query_params = some params →
          settle "Analysis error" analysisResult = .ok analysis →
          (timing.rawAfter + timing.analysisAfter < 5000 ∨ 5000 < timing.rawAfter) →
          (submitHandler fmt query timing rawResult arrivals analysisResult s).rawData
            = noDataWarning)
      ∧ (∀ params analysis, rawDataResult.query_params = some params →
          settle "Analysis error" analysisResult = .ok analysis →
          timing.rawAfter < 5000 → 5000 < timing.rawAfter + timing.analysisAfter →
          (submitHandler fmt query timing rawResult arrivals analysisResult s).rawData
            = slowNotice)
      ∧ (∀ params message, rawDataResult.query_params = some params →
          settle "Analysis error" analysisResult = .error message →
          (submitHandler fmt query timing rawResult arrivals analysisResult s).rawData
            = "<div class=\"error-message\">Error: " ++ message ++ "</div>")
      ∧ (rawDataResult.query_params = none →
          (submitHandler fmt query timing rawResult arrivals analysisResult s).rawData
            = "<div class=\"error-message\">Error: " ++
              "Cannot read properties of undefined (reading \x27country\x27)" ++ "</div>") := by
  have hw : ∀ t : Page Num, renderRawData fmt rawDataResult t
      = { t with rawDataSpinner := false, rawData := noDataWarning } := fun t =>
    renderRawData_warning fmt rawDataResult t
      (by intro first rest data hc; rw [hd] at hc; exact List.noConfusion (Option.some.inj hc.1))
  have hreq : (submitHandler fmt query timing rawResult arrivals analysisResult s).requests
        = s.requests ++ [Request.fetch query] ++
          (match rawDataResult.query_params with
            | some params => [Request.analyze params.country params.indicator none]
            | none => []) := by
    cases hp : rawDataResult.query_params with
    | none =>
      rw [submitHandler_no_params fmt query timing rawResult arrivals analysisResult s
        rawDataResult h hp, hw]
      cases timerDue timing timing.rawAfter <;>
        simp [progressiveFailed, fetchStart, timerCallback]
    | some params =>
      rw [submitHandler_analysis fmt query timing rawResult arrivals analysisResult s
        rawDataResult params [] h hp hd, (afterAnalysis_frame _ _).2.1, hw]
      cases timerDue timing timing.rawAfter <;>
        cases timerDue timing (timing.rawAfter + timing.analysisAfter) <;>
        simp [fetchStart, timerCallback, (visualizeResponses_frame _ _).2.2.2.1]
  have hreq2 : (fetchDataProgressively fmt query rawResult arrivals analysisResult s).requests
        = s.requests ++ [Request.fetch query] ++
          (match rawDataResult.query_params with
            | some params => [Request.analyze params.country params.indicator none]
            | none => []) := by
    cases hp : rawDataResult.query_params with
    | none =>
      rw [fetchDataProgressively_no_params fmt query rawResult arrivals analysisResult s
        rawDataResult h hp, hw]
      simp [progressiveFailed, fetchStart]
    | some params =>
      rw [fetchDataProgressively_analysis fmt query rawResult arrivals analysisResult s
        rawDataResult params [] h hp hd, (afterAnalysis_frame _ _).2.1,
        (visualizeResponses_frame _ _).2.2.2.1, hw]
      simp [fetchStart]
  refine ⟨hreq, hreq2, ?_, ?_, ?_, ?_, ?_⟩
  · intro mergedData hm
    rw [hreq] at hm
    cases hp : rawDataResult.query_params with
    | none => simpa [hp] using hm
    | some params => simpa [hp] using hm
  · intro params analysis hp ha ht
    rw [submitHandler_analysis fmt query timing rawResult arrivals analysisResult s
      rawDataResult params [] h hp hd, (afterAnalysis_ok _ analysis _ ha).1, hw]
    rcases ht with ht | ht
    · have h1 : timerDue timing timing.rawAfter = false := by
        simp [timerDue]; omega
      have h2 : timerDue timing (timing.rawAfter + timing.analysisAfter) = false := by
        simp [timerDue]; omega
      simp [h1, h2, (visualizeResponses_frame _ _).1]
    · have h1 : timerDue timing timing.rawAfter = true := by
        simp [timerDue]; omega
      simp [h1, (visualizeResponses_frame _ _).1]
  · intro params analysis hp ha hraw htot
    rw [submitHandler_analysis fmt query timing rawResult arrivals analysisResult s
      rawDataResult params [] h hp hd, (afterAnalysis_ok _ analysis _ ha).1]
    have h1 : timerDue timing timing.rawAfter = false := by
      simp [timerDue]; omega
    have h2 : timerDue timing (timing.rawAfter + timing.analysisAfter) = true := by
      simp [timerDue]; omega
    simp [h1, h2, timerCallback]
  · intro params message hp ha
    rw [submitHandler_analysis fmt query timing rawResult arrivals analysisResult s
      rawDataResult params [] h hp hd, afterAnalysis_error _ message _ ha]
    simp [progressiveFailed]
  · intro hp
    rw [submitHandler_no_params fmt query timing rawResult arrivals analysisResult s
      rawDataResult h hp]
    simp [progressiveFailed]

/-- Witness of the amended C4: an empty `datasets` list and an analysis that
succeeds, the run returning after 3 seconds. -/
theorem empty_datasets_no_chart_witness :
    settle "Server error"
        (.ok ⟨200, .ok ⟨some [], some ⟨"NP", "GDP"⟩⟩⟩ : FetchResult (RawDataResult Int))
        = .ok ⟨some [], some ⟨"NP", "GDP"⟩⟩
      ∧ ((1000 : Nat) + 2000 < 5000 ∨ 5000 < (1000 : Nat))
      ∧ (submitHandler intFmt "gdp of nepal" ⟨1000, 2000, false⟩
          (.ok ⟨200, .ok ⟨some [], some ⟨"NP", "GDP"⟩⟩⟩) []
          (.ok ⟨200, .ok ⟨some "steady growth"⟩⟩) initialPage).rawData = noDataWarning
      ∧ (submitHandler intFmt "gdp of nepal" ⟨1000, 2000, false⟩
          (.ok ⟨200, .ok ⟨some [], some ⟨"NP", "GDP"⟩⟩⟩) []
          (.ok ⟨200, .ok ⟨some "steady growth"⟩⟩) initialPage).requests
        = [Request.fetch "gdp of nepal", Request.analyze "NP" "GDP" none] :=
  ⟨rfl, Or.inl (by decide),
   (empty_datasets_no_chart intFmt "gdp of nepal" ⟨1000, 2000, false⟩
      (.ok ⟨200, .ok ⟨some [], some ⟨"NP", "GDP"⟩⟩⟩) []
      (.ok ⟨200, .ok ⟨some "steady growth"⟩⟩) initialPage
      ⟨some [], some ⟨"NP", "GDP"⟩⟩ rfl rfl).2.2.2.1 ⟨"NP", "GDP"⟩ ⟨some "steady growth"⟩
      rfl rfl (Or.inl (by decide)),
   (empty_datasets_no_chart intFmt "gdp of nepal" ⟨1000, 2000, false⟩
      (.ok ⟨200, .ok ⟨some [], some ⟨"NP", "GDP"⟩⟩⟩) []
      (.ok ⟨200, .ok ⟨some "steady growth"⟩⟩) initialPage
      ⟨some [], some ⟨"NP", "GDP"⟩⟩ rfl rfl).1⟩

/-- C2, as stated, fails: the table of a successful raw-data response is gone
after an analysis request answered with status 500; the raw-data region holds
the error block at the return. -/
theorem analysis_failure_counterexample :
    (fetchDataProgressively intFmt "gdp of nepal"
        (.ok ⟨200, .ok ⟨some [⟨some [⟨1990, 7⟩], "gdp"⟩], some ⟨"NP", "GDP"⟩⟩⟩) []
        (.ok ⟨500, .error "no body"⟩) initialPage).rawData
        = "<div class=\"error-message\">Error: Analysis error: 500</div>"
      ∧ (fetchDataProgressively intFmt "gdp of nepal"
          (.ok ⟨200, .ok ⟨some [⟨some [⟨1990, 7⟩], "gdp"⟩], some ⟨"NP", "GDP"⟩⟩⟩) []
          (.ok ⟨500, .error "no body"⟩) initialPage).rawData
        ≠ formatData intFmt [⟨1990, 7⟩] := by
  decide

/-- C2, amended: after a successful raw-data response whose table has been
rendered, a failure of the analysis phase (rejected request, status that is
not OK, unreadable body, or a missing `query_params` while the request is
built) replaces the table by the error block with the message of the failure;
the table is what the region holds at the return only when the analysis phase
succeeds.  In both cases the stored merged data stays and the visualize
request has been sent. -/
theorem analysis_failure_replaces_table {Num : Type} (fmt : Fmt Num) (query : String)
    (rawResult : FetchResult (RawDataResult Num))
    (arrivals : List (Nat × FetchResult (VisualData Num)))
    (analysisResult : FetchResult AnalysisResult) (s : Page Num)
    (rawDataResult : RawDataResult Num)
    (first : Dataset Num) (rest : List (Dataset Num)) (data : List (Point Num))
    (h : settle "Server error" rawResult = .ok rawDataResult)
    (hd : rawDataResult.datasets = some (first :: rest)) (hf : first.data = some data) :
    (∀ params message, rawDataResult.query_params = some params →
        settle "Analysis error" analysisResult = .error message →
        (fetchDataProgressively fmt query rawResult arrivals analysisResult s).rawData
          = "<div class=\"error-message\">Error: " ++ message ++ "</div>")
      ∧ (rawDataResult.query_params = none →
          (fetchDataProgressively fmt query rawResult arrivals analysisResult s).rawData
            = "<div class=\"error-message\">Error: " ++
              "Cannot read properties of undefined (reading \x27country\x27)" ++ "</div>")
      ∧ (∀ params analysis, rawDataResult.query_params = some params →
          settle "Analysis error" analysisResult = .ok analysis →
          (fetchDataProgressively fmt query rawResult arrivals analysisResult s).rawData
            = formatData fmt data)
      ∧ (fetchDataProgressively fmt query rawResult arrivals analysisResult s).mergedData
          = some first
      ∧ Request.visualize first ∈
          (fetchDataProgressively fmt query rawResult arrivals analysisResult s).requests := by
  have ht := renderRawData_table fmt rawDataResult (fetchStart query s) first rest data hd hf
  refine ⟨?_, ?_, ?_, ?_, ?_⟩
  · intro params message hp ha
    rw [fetchDataProgressively_analysis fmt query rawResult arrivals analysisResult s
      rawDataResult params _ h hp hd, afterAnalysis_error _ message _ ha]
    simp [progressiveFailed]
  · intro hp
    rw [fetchDataProgressively_no_params fmt query rawResult arrivals analysisResult s
      rawDataResult h hp]
    simp [progressiveFailed]
  · intro params analysis hp ha
    rw [fetchDataProgressively_analysis fmt query rawResult arrivals analysisResult s
      rawDataResult params _ h hp hd, (afterAnalysis_ok _ analysis _ ha).1,
      (visualizeResponses_frame _ _).1, ht]
    simp [renderVisualizationStart]
  · cases hp : rawDataResult.query_params with
    | none =>
      rw [fetchDataProgressively_no_params fmt query rawResult arrivals analysisResult s
        rawDataResult h hp, ht]
      simp [progressiveFailed, renderVisualizationStart]
    | some params =>
      rw [fetchDataProgressively_analysis fmt query rawResult arrivals analysisResult s
        rawDataResult params _ h hp hd, (afterAnalysis_frame _ _).1,
        (visualizeResponses_frame _ _).2.2.1, ht]
      simp [renderVisualizationStart]
  · cases hp : rawDataResult.query_params with
    | none =>
      rw [fetchDataProgressively_no_params fmt query rawResult arrivals analysisResult s
        rawDataResult h hp, ht]
      simp [progressiveFailed, renderVisualizationStart]
    | some params =>
      rw [fetchDataProgressively_analysis fmt query rawResult arrivals analysisResult s
        rawDataResult params _ h hp hd, (afterAnalysis_frame _ _).2.1,
        (visualizeResponses_frame _ _).2.2.2.1, ht]
      simp [renderVisualizationStart]

/-- Witness of the amended C2: a one-point dataset and a rejected analysis
request. -/
theorem analysis_failure_replaces_table_witness :
    settle "Server error"
        (.ok ⟨200, .ok ⟨some [⟨some [⟨1990, 7⟩], "gdp"⟩], some ⟨"NP", "GDP"⟩⟩⟩ :
          FetchResult (RawDataResult Int))
        = .ok ⟨some [⟨some [⟨1990, 7⟩], "gdp"⟩], some ⟨"NP", "GDP"⟩⟩
      ∧ (fetchDataProgressively intFmt "gdp of nepal"
          (.ok ⟨200, .ok ⟨some [⟨some [⟨1990, 7⟩], "gdp"⟩], some ⟨"NP", "GDP"⟩⟩⟩) []
          (.error "Failed to fetch") initialPage).rawData
        = "<div class=\"error-message\">Error: " ++ "Failed to fetch" ++ "</div>" :=
  ⟨rfl,
   (analysis_failure_replaces_table intFmt "gdp of nepal"
      (.ok ⟨200, .ok ⟨some [⟨some [⟨1990, 7⟩], "gdp"⟩], some ⟨"NP", "GDP"⟩⟩⟩) []
      (.error "Failed to fetch") initialPage
      ⟨some [⟨some [⟨1990, 7⟩], "gdp"⟩], some ⟨"NP", "GDP"⟩⟩
      ⟨some [⟨1990, 7⟩], "gdp"⟩ [] [⟨1990, 7⟩] rfl rfl rfl).1 ⟨"NP", "GDP"⟩ "Failed to fetch"
      rfl rfl⟩

/-! ## Claims on the submit listener -/

theorem afterRawData_noticeWrites {Num : Type} (fmt : Fmt Num)
    (rawResult : FetchResult (RawDataResult Num)) (s : Page Num) :
    (afterRawData fmt rawResult s).page.noticeWrites = s.noticeWrites := by
  have hr : ∀ r : RawDataResult Num, (renderRawData fmt r s).noticeWrites = s.noticeWrites := by
    intro r
    unfold renderRawData
    split
    · split <;> simp [renderVisualizationStart]
    · simp
  unfold afterRawData
  cases settle "Server error" rawResult with
  | error message => simp [Progress.page, progressiveFailed]
  | ok rawDataResult =>
    have h := hr rawDataResult
    rcases hq : rawDataResult.query_params with _ | params
    · simpa [requestAnalysis, hq, Progress.page, progressiveFailed] using h
    · rcases hd : rawDataResult.datasets with _ | datasets
      · simpa [requestAnalysis, hq, hd, Progress.page, progressiveFailed] using h
      · simpa [requestAnalysis, hq, hd, Progress.page] using h

/-- C1, as stated, fails: the raw-data request settles after 1 second, the
analysis request 6 seconds later; the timer runs at 5 seconds, writes the
notice over the table, and the notice is what the raw-data region holds when
the listener ends. -/
theorem fast_raw_slow_analysis_counterexample :
    (1000 : Nat) < 5000
      ∧ (submitHandler intFmt "gdp of nepal" ⟨1000, 6000, false⟩
          (.ok ⟨200, .ok ⟨some [⟨some [⟨1990, 7⟩], "gdp"⟩], some ⟨"NP", "GDP"⟩⟩⟩) []
          (.ok ⟨200, .ok ⟨some "steady growth"⟩⟩) initialPage).noticeWrites = 1
      ∧ (submitHandler intFmt "gdp of nepal" ⟨1000, 6000, false⟩
          (.ok ⟨200, .ok ⟨some [⟨some [⟨1990, 7⟩], "gdp"⟩], some ⟨"NP", "GDP"⟩⟩⟩) []
          (.ok ⟨200, .ok ⟨some "steady growth"⟩⟩) initialPage).rawData = slowNotice := by
  decide

/-- C1, amended: the notice is written exactly when the timer is due before
the run of `fetchDataProgressively` returns.  If the run returns in under 5
seconds (the raw-data request and, when it is awaited, the analysis request
have both settled by then) the listener does what the run alone does and the
notice is never written; if it returns after more than 5 seconds the notice is
written once; and when the raw-data request settles in under 5 seconds, the
run returns after more than 5 seconds and the analysis succeeds, the notice
is what the raw-data region holds at the end. -/
theorem notice_iff_timer_before_return {Num : Type} (fmt : Fmt Num) (query : String)
    (timing : Timing) (rawResult : FetchResult (RawDataResult Num))
    (arrivals : List (Nat × FetchResult (VisualData Num)))
    (analysisResult : FetchResult AnalysisResult) (s : Page Num) :
    (returnsAfter fmt query timing rawResult s < 5000 →
        submitHandler fmt query timing rawResult arrivals analysisResult s
            = fetchDataProgressively fmt query rawResult arrivals analysisResult s
          ∧ (submitHandler fmt query timing rawResult arrivals analysisResult s).noticeWrites
            = s.noticeWrites)
      ∧ (5000 < returnsAfter fmt query timing rawResult s →
          (submitHandler fmt query timing rawResult arrivals analysisResult s).noticeWrites
            = s.noticeWrites + 1)
      ∧ (timing.rawAfter < 5000 → 5000 < returnsAfter fmt query timing rawResult s →
          ∀ analysis, settle "Analysis error" analysisResult = .ok analysis →
          (submitHandler fmt query timing rawResult arrivals analysisResult s).rawData
            = slowNotice) := by
  have hfs : (fetchStart query s).noticeWrites = s.noticeWrites := rfl
  have hnw := afterRawData_noticeWrites fmt rawResult (fetchStart query s)
  refine ⟨?_, ?_, ?_⟩
  · intro h
    unfold returnsAfter at h
    have key : submitHandler fmt query timing rawResult arrivals analysisResult s
        = fetchDataProgressively fmt query rawResult arrivals analysisResult s := by
      unfold submitHandler fetchDataProgressively
      cases hA : afterRawData fmt rawResult (fetchStart query s) with
      | returned s1 =>
        rw [hA] at h
        have hdue : timerDue timing timing.rawAfter = false := by
          simp only [] at h
          simp [timerDue]
          omega
        simp [hdue, hA]
      | awaiting s1 =>
        rw [hA] at h
        simp only [] at h
        have hdue : timerDue timing timing.rawAfter = false := by
          simp [timerDue]
          omega
        have hdue2 : timerDue timing (timing.rawAfter + timing.analysisAfter) = false := by
          simp [timerDue]
          omega
        simp [hdue, hdue2, hA]
    refine ⟨key, ?_⟩
    rw [key]
    unfold fetchDataProgressively
    cases hA : afterRawData fmt rawResult (fetchStart query s) with
    | returned s1 =>
      rw [hA] at hnw
      simpa [Progress.page] using hnw
    | awaiting s1 =>
      rw [hA] at hnw
      simp only []
      rw [(afterAnalysis_frame _ _).2.2, (visualizeResponses_frame _ _).2.2.2.2]
      simpa [Progress.page] using hnw
  · intro h
    unfold returnsAfter at h
    unfold submitHandler
    cases hdue : timerDue timing timing.rawAfter with
    | true =>
      have hnw2 := afterRawData_noticeWrites fmt rawResult (timerCallback (fetchStart query s))
      simp only [if_true]
      cases hA : afterRawData fmt rawResult (timerCallback (fetchStart query s)) with
      | returned s1 =>
        rw [hA] at hnw2
        simpa [Progress.page, timerCallback] using hnw2
      | awaiting s1 =>
        rw [hA] at hnw2
        simp only [Bool.not_true, Bool.false_and, Bool.false_eq_true, if_false]
        rw [(afterAnalysis_frame _ _).2.2, (visualizeResponses_frame _ _).2.2.2.2]
        simpa [Progress.page, timerCallback] using hnw2
    | false =>
      simp only [Bool.false_eq_true, if_false]
      cases hA : afterRawData fmt rawResult (fetchStart query s) with
      | returned s1 =>
        rw [hA] at h
        simp only [] at h
        simp [timerDue] at hdue
        omega
      | awaiting s1 =>
        rw [hA] at h hnw
        simp only [] at h
        have hdue2 : timerDue timing (timing.rawAfter + timing.analysisAfter) = true := by
          simp [timerDue]
          omega
        simp only [Bool.not_false, Bool.true_and, hdue2, if_true]
        rw [(afterAnalysis_frame _ _).2.2]
        simp only [timerCallback]
        rw [(visualizeResponses_frame _ _).2.2.2.2]
        simp only [Progress.page] at hnw
        rw [hnw, hfs]
  · intro hraw h analysis ha
    unfold returnsAfter at h
    unfold submitHandler
    have hdue : timerDue timing timing.rawAfter = false := by
      simp [timerDue]
      omega
    simp only [hdue, Bool.false_eq_true, if_false]
    cases hA : afterRawData fmt rawResult (fetchStart query s) with
    | returned s1 =>
      rw [hA] at h
      simp only [] at h
      omega
    | awaiting s1 =>
      rw [hA] at h
      simp only [] at h
      have hdue2 : timerDue timing (timing.rawAfter + timing.analysisAfter) = true := by
        simp [timerDue]
        omega
      simp only [Bool.not_false, Bool.true_and, hdue2, if_true]
      rw [(afterAnalysis_ok _ analysis _ ha).1]
      rfl

/-- Witness of the amended C1: both requests settle within 3 seconds. -/
theorem notice_iff_timer_before_return_witness :
    returnsAfter intFmt "gdp of nepal" ⟨1000, 2000, false⟩
        (.ok ⟨200, .ok ⟨some [⟨some [⟨1990, 7⟩], "gdp"⟩], some ⟨"NP", "GDP"⟩⟩⟩)
        initialPage < 5000
      ∧ (submitHandler intFmt "gdp of nepal" ⟨1000, 2000, false⟩
          (.ok ⟨200, .ok ⟨some [⟨some [⟨1990, 7⟩], "gdp"⟩], some ⟨"NP", "GDP"⟩⟩⟩) []
          (.ok ⟨200, .ok ⟨some "steady growth"⟩⟩) initialPage).noticeWrites = 0 :=
  ⟨by decide,
   ((notice_iff_timer_before_return intFmt "gdp of nepal" ⟨1000, 2000, false⟩
      (.ok ⟨200, .ok ⟨some [⟨some [⟨1990, 7⟩], "gdp"⟩], some ⟨"NP", "GDP"⟩⟩⟩) []
      (.ok ⟨200, .ok ⟨some "steady growth"⟩⟩) initialPage).1 (by decide)).2⟩

/-! ## Claims on the chart-type listener and the merged data -/

theorem eraseIdx_append_length {α : Type} (xs : List α) (x : α) :
    (xs ++ [x]).eraseIdx xs.length = xs := by
  induction xs with
  | nil => rfl
  | cons y ys ih => simp [List.eraseIdx, ih]

theorem graphTypeClick_button {Num : Type} (target : ClickTarget)
    (result : FetchResult (VisualData Num)) (s : Page Num) (mergedData : Dataset Num)
    (hb : target.tagName = "BUTTON") (hm : s.mergedData = some mergedData) :
    graphTypeClick target result s
      = renderVisualizationResume target.dataType result
          { s with graphSpinner := true
                   requests := s.requests ++ [Request.visualize mergedData] } := by
  have hstart : graphTypeClickStart target s
      = renderVisualizationStart mergedData target.dataType s := by
    simp [graphTypeClickStart, hb, hm]
  unfold graphTypeClick visualizeResponse
  rw [hstart]
  simp [renderVisualizationStart, eraseIdx_append_length]

/-- C9: a click on a chart-type button, once a dataset is stored, sends exactly
one request, the visualize request with the stored dataset as `merged_data`;
no raw-data or analysis request is sent; and when the visualize request
succeeds the raw-data and analysis regions are unchanged and the chart created
has the `data-type` of the button as its type. -/
theorem chart_type_click {Num : Type} (target : ClickTarget)
    (result : FetchResult (VisualData Num)) (s : Page Num) (mergedData : Dataset Num)
    (hb : target.tagName = "BUTTON") (hm : s.mergedData = some mergedData) :
    (graphTypeClick target result s).requests = s.requests ++ [Request.visualize mergedData]
      ∧ (graphTypeClick target result s).pendingRenders = s.pendingRenders
      ∧ (graphTypeClick target result s).mergedData = some mergedData
      ∧ (∀ visualData, settle "Visualization error" result = .ok visualData →
          (graphTypeClick target result s).rawData = s.rawData
            ∧ (graphTypeClick target result s).aiAnalysis = s.aiAnalysis
            ∧ (graphTypeClick target result s).currentChart
                = some ⟨chartsCreated s, target.dataType, visualData.years,
                    visualData.values⟩) := by
  have hf := renderVisualizationResume_frame target.dataType result
    { s with graphSpinner := true, requests := s.requests ++ [Request.visualize mergedData] }
  rw [graphTypeClick_button target result s mergedData hb hm]
  refine ⟨hf.2.2.2.1, hf.2.2.2.2.2, hf.2.2.1.trans hm, ?_⟩
  intro visualData hv
  refine ⟨hf.1, hf.2.1, ?_⟩
  unfold renderVisualizationResume
  rw [hv]
  cases hc : s.currentChart with
  | none => simp [hc, createChart, chartsCreated]
  | some chart => simp [hc, createChart, destroyChart, chartsCreated, createdIds]

/-- Witness of C9: a click on the "bar" button with a dataset stored. -/
theorem chart_type_click_witness :
    (graphTypeClick ⟨"BUTTON", some "bar"⟩ (.ok ⟨200, .ok ⟨[1990], [7]⟩⟩)
        { (initialPage : Page Int) with mergedData := some ⟨some [⟨1990, 7⟩], "gdp"⟩ }).requests
      = [Request.visualize ⟨some [⟨1990, 7⟩], "gdp"⟩] :=
  (chart_type_click ⟨"BUTTON", some "bar"⟩ (.ok ⟨200, .ok ⟨[1990], [7]⟩⟩)
    { (initialPage : Page Int) with mergedData := some ⟨some [⟨1990, 7⟩], "gdp"⟩ }
    ⟨some [⟨1990, 7⟩], "gdp"⟩ rfl rfl).1

theorem fetchDataProgressively_mergedData {Num : Type} (fmt : Fmt Num) (query : String)
    (rawResult : FetchResult (RawDataResult Num))
    (arrivals : List (Nat × FetchResult (VisualData Num)))
    (analysisResult : FetchResult AnalysisResult) (s : Page Num) :
    (fetchDataProgressively fmt query rawResult arrivals analysisResult s).mergedData
      = match passesCheck rawResult with
        | some first => some first
        | none => s.mergedData := by
  unfold passesCheck
  cases h : settle "Server error" rawResult with
  | error message =>
    rw [fetchDataProgressively_raw_error fmt query rawResult arrivals analysisResult s message h]
    rfl
  | ok rawDataResult =>
    have hrender : (renderRawData fmt rawDataResult (fetchStart query s)).mergedData
        = match (match rawDataResult.datasets with
            | some (first :: _) => if first.data.isSome then some first else none
            | _ => none) with
          | some first => some first
          | none => s.mergedData := by
      rcases hd : rawDataResult.datasets with _ | datasets
      · rw [renderRawData_warning fmt rawDataResult _
          (by intro first rest data hc; rw [hd] at hc; exact Option.noConfusion hc.1)]
        rfl
      · cases datasets with
        | nil =>
          rw [renderRawData_warning fmt rawDataResult _
            (by intro first rest data hc; rw [hd] at hc
                exact List.noConfusion (Option.some.inj hc.1))]
          rfl
        | cons first rest =>
          cases hf : first.data with
          | none =>
            rw [renderRawData_warning fmt rawDataResult _
              (by intro first2 rest2 data hc; rw [hd] at hc
                  have := (List.cons.inj (Option.some.inj hc.1)).1
                  rw [← this, hf] at hc
                  exact Option.noConfusion hc.2)]
            simp [hf, fetchStart]
          | some data =>
            rw [renderRawData_table fmt rawDataResult _ first rest data hd hf]
            simp [hf, renderVisualizationStart]
    simp only []
    rw [← hrender]
    cases hp : rawDataResult.query_params with
    | none =>
      rw [fetchDataProgressively_no_params fmt query rawResult arrivals analysisResult s
        rawDataResult h hp]
      rfl
    | some params =>
      rcases hd : rawDataResult.datasets with _ | datasets
      · simp [fetchDataProgressively, afterRawData, h, requestAnalysis, hp, hd,
          progressiveFailed]
      · rw [fetchDataProgressively_analysis fmt query rawResult arrivals analysisResult s
          rawDataResult params datasets h hp hd, (afterAnalysis_frame _ _).1,
          (visualizeResponses_frame _ _).2.2.1]

/-- C10: a run of `fetchDataProgressively` writes the stored merged data only
when its raw-data response passes the test of line 132, and then stores the
first dataset; every other run (raw-data failure, no dataset, analysis
failure or not) leaves it as it was, the clearing of the regions included.
After any sequence of submissions the stored value is therefore the first
dataset of the latest submission that passed the test (or the value before
the sequence if none did), and a chart-type click then sends the visualize
request for that dataset. -/
theorem merged_data_latest_passing {Num : Type} (fmt : Fmt Num)
    (submissions : List (Submission Num)) (s : Page Num) :
    (∀ (sub : Submission Num) (t : Page Num),
        (fetchDataProgressively fmt sub.query sub.rawResult sub.arrivals sub.analysisResult
            t).mergedData
          = match passesCheck sub.rawResult with
            | some first => some first
            | none => t.mergedData)
      ∧ (runSubmissions fmt s submissions).mergedData
          = (match submissions.reverse.findSome? (fun sub => passesCheck sub.rawResult) with
            | some first => some first
            | none => s.mergedData)
      ∧ (∀ first result dataType,
          submissions.reverse.findSome? (fun sub => passesCheck sub.rawResult) = some first →
          (graphTypeClick ⟨"BUTTON", dataType⟩ result
              (runSubmissions fmt s submissions)).requests
            = (runSubmissions fmt s submissions).requests ++ [Request.visualize first]) := by
  have hrun : (runSubmissions fmt s submissions).mergedData
      = (match submissions.reverse.findSome? (fun sub => passesCheck sub.rawResult) with
        | some first => some first
        | none => s.mergedData) := by
    induction submissions using List.reverseRecOn with
    | nil => rfl
    | append_singleton init last ih =>
      have hstep : runSubmissions fmt s (init ++ [last])
          = fetchDataProgressively fmt last.query last.rawResult last.arrivals
              last.analysisResult (runSubmissions fmt s init) := by
        simp [runSubmissions, List.foldl_append]
      rw [hstep, fetchDataProgressively_mergedData, List.reverse_append]
      cases hc : passesCheck last.rawResult with
      | some first => simp [hc]
      | none => simp [hc, ih]
  refine ⟨?_, hrun, ?_⟩
  · intro sub t
    exact fetchDataProgressively_mergedData fmt sub.query sub.rawResult sub.arrivals
      sub.analysisResult t
  · intro first result dataType hfind
    rw [hfind] at hrun
    rw [graphTypeClick_button ⟨"BUTTON", dataType⟩ result (runSubmissions fmt s submissions)
      first rfl hrun]
    exact (renderVisualizationResume_frame _ _ _).2.2.2.1

/-- Witness of C10: a submission with data, then one with an empty `datasets`
list; the click renders the dataset of the first. -/
theorem merged_data_latest_passing_witness :
    (graphTypeClick ⟨"BUTTON", some "bar"⟩ (.error "offline")
        (runSubmissions intFmt initialPage
          [⟨"gdp of nepal",
            .ok ⟨200, .ok ⟨some [⟨some [⟨1990, 7⟩], "gdp"⟩], some ⟨"NP", "GDP"⟩⟩⟩, [],
            .ok ⟨200, .ok ⟨some "steady growth"⟩⟩⟩,
           ⟨"gdp of atlantis", .ok ⟨200, .ok ⟨some [], some ⟨"AT", "GDP"⟩⟩⟩, [],
            .ok ⟨500, .error "no body"⟩⟩])).requests
      = (runSubmissions intFmt initialPage
          [⟨"gdp of nepal",
            .ok ⟨200, .ok ⟨some [⟨some [⟨1990, 7⟩], "gdp"⟩], some ⟨"NP", "GDP"⟩⟩⟩, [],
            .ok ⟨200, .ok ⟨some "steady growth"⟩⟩⟩,
           ⟨"gdp of atlantis", .ok ⟨200, .ok ⟨some [], some ⟨"AT", "GDP"⟩⟩⟩, [],
            .ok ⟨500, .error "no body"⟩⟩]).requests
        ++ [Request.visualize ⟨some [⟨1990, 7⟩], "gdp"⟩] :=
  (merged_data_latest_passing intFmt
      [⟨"gdp of nepal",
        .ok ⟨200, .ok ⟨some [⟨some [⟨1990, 7⟩], "gdp"⟩], some ⟨"NP", "GDP"⟩⟩⟩, [],
        .ok ⟨200, .ok ⟨some "steady growth"⟩⟩⟩,
       ⟨"gdp of atlantis", .ok ⟨200, .ok ⟨some [], some ⟨"AT", "GDP"⟩⟩⟩, [],
        .ok ⟨500, .error "no body"⟩⟩] initialPage).2.2
    ⟨some [⟨1990, 7⟩], "gdp"⟩ (.error "offline") (some "bar") (by decide)

/-! ## Claims on the chart handle -/

theorem createdIds_append {Num : Type} (xs ys : List (ChartOp Num)) :
    createdIds (xs ++ ys) = createdIds xs ++ createdIds ys := by
  simp [createdIds, List.filterMap_append]

theorem destroyedIds_append {Num : Type} (xs ys : List (ChartOp Num)) :
    destroyedIds (xs ++ ys) = destroyedIds xs ++ destroyedIds ys := by
  simp [destroyedIds, List.filterMap_append]

theorem chartInvariant_initial {Num : Type} : ChartInvariant (initialPage : Page Num) :=
  ⟨rfl, ⟨rfl, rfl⟩⟩

theorem chartInvariant_start {Num : Type} (mergedData : Dataset Num)
    (chartType : Option String) (s : Page Num) (h : ChartInvariant s) :
    ChartInvariant (renderVisualizationStart mergedData chartType s) :=
  ⟨h.created, h.handle⟩

theorem resume_ok {Num : Type} (chartType : Option String)
    (result : FetchResult (VisualData Num)) (visualData : VisualData Num) (s : Page Num)
    (hv : settle "Visualization error" result = .ok visualData) :
    (renderVisualizationResume chartType result s).chartOps
        = s.chartOps ++
          (match s.currentChart with
            | some chart => [ChartOp.destroyed chart.id]
            | none => []) ++
          [ChartOp.created ⟨chartsCreated s, chartType, visualData.years, visualData.values⟩]
      ∧ (renderVisualizationResume chartType result s).currentChart
        = some ⟨chartsCreated s, chartType, visualData.years, visualData.values⟩
      ∧ (renderVisualizationResume chartType result s).liveCharts
        = (match s.currentChart with
            | some chart => s.liveCharts.filter (fun i => i != chart.id)
            | none => s.liveCharts) ++ [chartsCreated s] := by
  unfold renderVisualizationResume
  rw [hv]
  cases hc : s.currentChart with
  | none => simp [hc, createChart, chartsCreated]
  | some chart =>
    simp [hc, createChart, destroyChart, chartsCreated, createdIds_append, createdIds]

theorem chartInvariant_resume {Num : Type} (chartType : Option String)
    (result : FetchResult (VisualData Num)) (s : Page Num) (h : ChartInvariant s) :
    ChartInvariant (renderVisualizationResume chartType result s) := by
  cases hv : settle "Visualization error" result with
  | error message =>
    have : renderVisualizationResume chartType result s = visualizationFailed message s := by
      unfold renderVisualizationResume
      rw [hv]
    rw [this]
    exact ⟨h.created, h.handle⟩
  | ok visualData =>
    obtain ⟨hops, hcur, hlive⟩ := resume_ok chartType result visualData s hv
    have hcreated := h.created
    have hhandle := h.handle
    have hn : chartsCreated (renderVisualizationResume chartType result s)
        = chartsCreated s + 1 := by
      unfold chartsCreated
      rw [hops]
      cases s.currentChart <;> simp [createdIds_append, createdIds]
    refine ⟨?_, ?_⟩
    · rw [hn, List.range_succ, ← hcreated, hops]
      cases s.currentChart <;> simp [createdIds_append, createdIds]
    · rw [hcur]
      simp only []
      refine ⟨hn.symm, ?_, ?_⟩
      · rw [hops]
        cases hc : s.currentChart with
        | none =>
          rw [hc] at hhandle
          simp only [] at hhandle
          have h0 : chartsCreated s = 0 := by simp [chartsCreated, hhandle.1, createdIds]
          simp [hhandle.1, h0, destroyedIds]
        | some chart =>
          rw [hc] at hhandle
          simp only [] at hhandle
          rw [← hhandle.1, List.range_succ, ← hhandle.2.1]
          simp [destroyedIds_append, destroyedIds]
      · rw [hlive]
        cases hc : s.currentChart with
        | none =>
          rw [hc] at hhandle
          simp [hhandle.2]
        | some chart =>
          rw [hc] at hhandle
          simp [hhandle.2.2]

theorem chartInvariant_response {Num : Type} (k : Nat)
    (result : FetchResult (VisualData Num)) (s : Page Num) (h : ChartInvariant s) :
    ChartInvariant (visualizeResponse k result s) := by
  unfold visualizeResponse
  cases s.pendingRenders[k]? with
  | none => exact h
  | some chartType =>
    exact chartInvariant_resume chartType result _ ⟨h.created, h.handle⟩

theorem chartInvariant_run {Num : Type} (events : List (ChartEvent Num)) (s : Page Num)
    (h : ChartInvariant s) : ChartInvariant (runChartEvents s events) := by
  induction events generalizing s with
  | nil => exact h
  | cons event rest ih =>
    apply ih
    cases event with
    | render mergedData chartType => exact chartInvariant_start mergedData chartType s h
    | response k result => exact chartInvariant_response k result s h

theorem range_succ_filter_not_mem (n : Nat) :
    (List.range (n + 1)).filter (fun i => decide (i ∉ List.range n)) = [n] := by
  rw [List.range_succ, List.filter_append]
  have h1 : (List.range n).filter (fun i => decide (i ∉ List.range n)) = [] := by
    rw [List.filter_eq_nil_iff]
    intro a ha
    simpa using ha
  rw [h1]
  simp

/-- C8: in every state reached from the loaded page by calls of
`renderVisualization` and arrivals of their responses, in any interleaving,
the charts created and not destroyed are exactly the chart held by
`currentChart` (none if it is empty), so at most one; no chart is destroyed
twice; and a successful response destroys the chart held before, if there is
one, once and before the new chart is created and stored. -/
theorem chart_handle_single_live {Num : Type} (events : List (ChartEvent Num)) :
    (createdIds (runChartEvents initialPage events).chartOps).filter
        (fun i => decide (i ∉ destroyedIds (runChartEvents initialPage events).chartOps))
        = ((runChartEvents initialPage events).currentChart.map Chart.id).toList
      ∧ (runChartEvents initialPage events).liveCharts
        = ((runChartEvents initialPage events).currentChart.map Chart.id).toList
      ∧ (runChartEvents initialPage events).liveCharts.length ≤ 1
      ∧ (destroyedIds (runChartEvents initialPage events).chartOps).Nodup
      ∧ (∀ k chartType (result : FetchResult (VisualData Num)) visualData,
          (runChartEvents initialPage events).pendingRenders[k]? = some chartType →
          settle "Visualization error" result = .ok visualData →
          (visualizeResponse k result (runChartEvents initialPage events)).chartOps
              = (runChartEvents initialPage events).chartOps ++
                (match (runChartEvents initialPage events).currentChart with
                  | some chart => [ChartOp.destroyed chart.id]
                  | none => []) ++
                [ChartOp.created ⟨chartsCreated (runChartEvents initialPage events), chartType,
                  visualData.years, visualData.values⟩]
            ∧ (visualizeResponse k result (runChartEvents initialPage events)).currentChart
              = some ⟨chartsCreated (runChartEvents initialPage events), chartType,
                  visualData.years, visualData.values⟩) := by
  have inv : ChartInvariant (runChartEvents (initialPage : Page Num) events) :=
    chartInvariant_run events initialPage chartInvariant_initial
  generalize runChartEvents (initialPage : Page Num) events = st at inv ⊢
  have hcreated := inv.created
  have hhandle := inv.handle
  refine ⟨?_, ?_, ?_, ?_, ?_⟩
  · cases hc : st.currentChart with
    | none =>
      rw [hc] at hhandle
      simp [hhandle.1, createdIds]
    | some chart =>
      rw [hc] at hhandle
      simp only [] at hhandle
      rw [hcreated, ← hhandle.1, hhandle.2.1]
      exact range_succ_filter_not_mem chart.id
  · cases hc : st.currentChart with
    | none =>
      rw [hc] at hhandle
      simp [hhandle.2]
    | some chart =>
      rw [hc] at hhandle
      simp [hhandle.2.2]
  · cases hc : st.currentChart with
    | none =>
      rw [hc] at hhandle
      simp [hhandle.2]
    | some chart =>
      rw [hc] at hhandle
      simp [hhandle.2.2]
  · cases hc : st.currentChart with
    | none =>
      rw [hc] at hhandle
      simp [hhandle.1, destroyedIds]
    | some chart =>
      rw [hc] at hhandle
      simp only [] at hhandle
      rw [hhandle.2.1]
      exact List.nodup_range chart.id
  · intro k chartType result visualData hp hv
    unfold visualizeResponse
    rw [hp]
    have h := resume_ok chartType result visualData
      { st with pendingRenders := st.pendingRenders.eraseIdx k } hv
    exact ⟨h.1, h.2.1⟩

/-- Witness of C8: with one chart shown and a second render pending, the
arrival of its response destroys chart 0 and then creates chart 1. -/
theorem chart_handle_single_live_witness :
    (runChartEvents (initialPage : Page Int)
        [.render ⟨some [⟨1990, 7⟩], "gdp"⟩ (some "line"),
         .response 0 (.ok ⟨200, .ok ⟨[1990], [7]⟩⟩),
         .render ⟨some [⟨1990, 7⟩], "gdp"⟩ (some "bar")]).pendingRenders[0]?
        = some (some "bar")
      ∧ (visualizeResponse 0 (.ok ⟨200, .ok ⟨[1990], [7]⟩⟩)
          (runChartEvents (initialPage : Page Int)
            [.render ⟨some [⟨1990, 7⟩], "gdp"⟩ (some "line"),
             .response 0 (.ok ⟨200, .ok ⟨[1990], [7]⟩⟩),
             .render ⟨some [⟨1990, 7⟩], "gdp"⟩ (some "bar")])).chartOps
        = [ChartOp.created ⟨0, some "line", [1990], [7]⟩, ChartOp.destroyed 0,
           ChartOp.created ⟨1, some "bar", [1990], [7]⟩] :=
  ⟨by decide,
   ((chart_handle_single_live
      [.render ⟨some [⟨1990, 7⟩], "gdp"⟩ (some "line"),
       .response 0 (.ok ⟨200, .ok ⟨[1990], [7]⟩⟩),
       .render ⟨some [⟨1990, 7⟩], "gdp"⟩ (some "bar")]).2.2.2.2
      0 (some "bar") (.ok ⟨200, .ok ⟨[1990], [7]⟩⟩) ⟨[1990], [7]⟩ (by decide) rfl).1⟩

end Scripts
